import Mathlib

/-!
Verification development for the webinar-hosting-platform repository.

The real-time session-coordination layer is shallowly embedded here:
the Redis-backed room presence set, the rate limiter, the chat handlers,
the WebRTC signaling relay and the webinar lifecycle routes, each
translated from the JavaScript source (src/socket/socketHandler.js,
src/server.js, src/routes/webinars.js and the mongoose Webinar model).
Machine-level details that the claims do not touch (JSON serialization,
socket bookkeeping, logging) are elided; every retained step mirrors a
line of the source.
-/

/-- One member of the Redis set room presence, i.e. the parsed form of the
JSON string that handleJoinRoom sAdd-s into room roomId presence.
Equality of records models equality of the serialized JSON strings. -/
structure PresenceRecord where
  userId : String
  socketId : String
  username : String
  role : String
  joinedAt : Nat
  audioEnabled : Bool
  videoEnabled : Bool
  screenSharing : Bool
  handRaised : Bool
deriving DecidableEq, Repr

/-- Redis sAdd on the presence set: a set of serialized records, modelled
as a duplicate-free list; adding an already-present member is a no-op. -/
def sAdd (s : List PresenceRecord) (r : PresenceRecord) : List PresenceRecord :=
  if r ∈ s then s else s ++ [r]

/-- Redis sCard: the number of members of the presence set. -/
def sCard (s : List PresenceRecord) : Nat :=
  s.length

/-- Redis sRem: removes the given member from the presence set. -/
def sRem (s : List PresenceRecord) (r : PresenceRecord) : List PresenceRecord :=
  s.erase r

/-- A Redis string counter together with its optional expiry instant,
as manipulated by incr and expire in isRateLimited. -/
structure RedisCounter where
  count : Nat
  expireAt : Option Nat
deriving DecidableEq, Repr

/-- The counter as visible at instant now: a key whose expiry instant has
been reached no longer exists (Redis TTL deletion). -/
def counterLive (c : Option RedisCounter) (now : Nat) : Option RedisCounter :=
  match c with
  | none => none
  | some rc =>
    match rc.expireAt with
    | none => some rc
    | some t => if t ≤ now then none else some rc

/-- Redis incr at instant now: creates the key with value 1 when absent or
expired, otherwise increments it, preserving any TTL. The count field of
the result is the post-increment value that incr returns. -/
def redisIncrAt (c : Option RedisCounter) (now : Nat) : RedisCounter :=
  match counterLive c now with
  | none => { count := 1, expireAt := none }
  | some rc => { rc with count := rc.count + 1 }

/-- isRateLimited from socketHandler.js: incr the counter, set it to
expire windowSeconds later when this was the first increment of the
window, and report whether the post-increment count exceeds maxRequests. -/
def isRateLimitedAt (c : Option RedisCounter) (now maxRequests windowSeconds : Nat) :
    RedisCounter × Bool :=
  let rc := redisIncrAt c now
  let rc2 := if rc.count = 1 then { rc with expireAt := some (now + windowSeconds) } else rc
  (rc2, decide (rc.count > maxRequests))

/-- RATE_LIMIT_KEY from socketHandler.js: built from the user id and the
action name only; no room id enters the key. -/
def RATE_LIMIT_KEY (userId action : String) : String :=
  "ratelimit:" ++ userId ++ ":" ++ action

/-- Folds a sequence of rate-limit checks (one per instant in times),
threading the counter and collecting each allowed/denied verdict. -/
def runChecks (c : Option RedisCounter) (times : List Nat) (maxRequests windowSeconds : Nat) :
    Option RedisCounter × List Bool :=
  times.foldl
    (fun acc t =>
      let r := isRateLimitedAt acc.1 t maxRequests windowSeconds
      (some r.1, acc.2 ++ [r.2]))
    (c, [])

/-- The JavaScript string trim used on chat message bodies: strips leading
and trailing whitespace. -/
def jsTrim (s : String) : String :=
  ⟨(s.data.dropWhile Char.isWhitespace).reverse.dropWhile Char.isWhitespace |>.reverse⟩

/-- The status enum of the mongoose webinar schema. -/
inductive WStatus where
  | scheduled
  | live
  | ended
  | cancelled
deriving DecidableEq, Repr

/-- One entry of the participants array of the mongoose webinar document.
An entry is active while leftAt is none. -/
structure WebinarParticipant where
  user : String
  joinedAt : Nat
  leftAt : Option Nat
  duration : Option Nat
  role : String
deriving DecidableEq, Repr

/-- Predicate of the find call in addParticipant and removeParticipant of
the Webinar model: an active entry of the given user. -/
def activeMatch (uid : String) (p : WebinarParticipant) : Bool :=
  p.user == uid && p.leftAt == none

/-- webinarSchema.methods.addParticipant: returns the array unchanged when
an active entry for the user already exists, otherwise pushes a fresh
entry with joinedAt set and no leftAt. -/
def addParticipant (ps : List WebinarParticipant) (uid role : String) (now : Nat) :
    List WebinarParticipant :=
  match ps.find? (activeMatch uid) with
  | some _ => ps
  | none => ps ++ [{ user := uid, joinedAt := now, leftAt := none, duration := none, role := role }]

/-- webinarSchema.methods.removeParticipant: finds the first active entry
of the user and closes it, setting leftAt and the duration in seconds;
entries already closed and all other users are untouched. -/
def removeParticipant : List WebinarParticipant → String → Nat → List WebinarParticipant
  | [], _, _ => []
  | p :: ps, uid, now =>
    if activeMatch uid p then
      { p with leftAt := some now, duration := some (now - p.joinedAt) } :: ps
    else
      p :: removeParticipant ps uid now

/-- The settings subdocument of the mongoose webinar schema (the fields
the embedded handlers consult). -/
structure WebinarSettings where
  allowChat : Bool
  allowReactions : Bool
  allowScreenShare : Bool
deriving DecidableEq, Repr

/-- The mongoose webinar document, restricted to the fields read or
written by the embedded handlers. -/
structure WebinarDoc where
  host : String
  status : WStatus
  roomId : String
  maxParticipants : Nat
  isPublic : Bool
  settings : WebinarSettings
  participants : List WebinarParticipant
  actualStartTime : Option Nat
  actualEndTime : Option Nat
deriving DecidableEq, Repr

/-- webinarSchema.methods.startWebinar: flips the status to live and
records the actual start time. -/
def startWebinar (w : WebinarDoc) (now : Nat) : WebinarDoc :=
  { w with status := WStatus.live, actualStartTime := some now }

/-- webinarSchema.methods.endWebinar: flips the status to ended, records
the actual end time, and closes out every still-active participant entry
with a left time and duration. -/
def endWebinar (w : WebinarDoc) (now : Nat) : WebinarDoc :=
  { w with
    status := WStatus.ended
    actualEndTime := some now
    participants := w.participants.map (fun p =>
      if p.leftAt = none then
        { p with leftAt := some now, duration := some (now - p.joinedAt) }
      else p) }

/-- Outcome of the start and end webinar routes, naming the HTTP
responses: 403 only-the-host is forbidden, 400 wrong-status is
invalidState. -/
inductive LifecycleRes where
  | started (w : WebinarDoc)
  | ended (w : WebinarDoc)
  | forbidden
  | invalidState
deriving DecidableEq, Repr

/-- POST /:id/start from routes/webinars.js (webinar already found): 403
unless the requester is the recorded host, 400 unless the status is
scheduled, otherwise startWebinar. -/
def postStart (w : WebinarDoc) (requesterId : String) (now : Nat) : LifecycleRes :=
  if ¬ (w.host = requesterId) then LifecycleRes.forbidden
  else if ¬ (w.status = WStatus.scheduled) then LifecycleRes.invalidState
  else LifecycleRes.started (startWebinar w now)

/-- POST /:id/end from routes/webinars.js (webinar already found): 403
unless the requester is the recorded host, 400 unless the status is live,
otherwise endWebinar. -/
def postEnd (w : WebinarDoc) (requesterId : String) (now : Nat) : LifecycleRes :=
  if ¬ (w.host = requesterId) then LifecycleRes.forbidden
  else if ¬ (w.status = WStatus.live) then LifecycleRes.invalidState
  else LifecycleRes.ended (endWebinar w now)

/-- The authenticated identity attached to a socket by authenticateSocket
(socket.user), restricted to the fields the handlers read. -/
structure UserInfo where
  id : String
  username : String
  role : String
deriving DecidableEq, Repr

/-- getUserRoleInWebinar from socketHandler.js. -/
def getUserRoleInWebinar (u : UserInfo) (w : WebinarDoc) : String :=
  if w.host = u.id then "host" else "attendee"

/-- The presence record handleJoinRoom serializes into the room presence
set for the joining socket. -/
def mkPresenceRecord (u : UserInfo) (sid role : String) (now : Nat) : PresenceRecord :=
  { userId := u.id
    socketId := sid
    username := u.username
    role := role
    joinedAt := now
    audioEnabled := false
    videoEnabled := false
    screenSharing := false
    handRaised := false }

/-- Outcome of handleJoinRoom, naming the error events it emits. -/
inductive JoinOutcome where
  | accessDenied
  | notLive
  | roomFull
  | joined
deriving DecidableEq, Repr

/-- Result of handleJoinRoom: the outcome, the new presence set and the
saved webinar document. -/
structure JoinRes where
  outcome : JoinOutcome
  presence : List PresenceRecord
  webinar : WebinarDoc
deriving DecidableEq, Repr

/-- handleJoinRoom from socketHandler.js, with the webinar already found:
students are rejected from private or non-live webinars; then the
capacity gate compares sCard of the presence set against
maxParticipants; past the gate a fresh record is sAdd-ed and the user is
added to the webinar participants array. The capacity read and the
insertion are two separate store operations, each an await point. -/
def handleJoinRoom (w : WebinarDoc) (pres : List PresenceRecord) (u : UserInfo)
    (sid : String) (now : Nat) : JoinRes :=
  if u.role = "student" ∧ w.isPublic = false then ⟨JoinOutcome.accessDenied, pres, w⟩
  else if u.role = "student" ∧ ¬ (w.status = WStatus.live) then ⟨JoinOutcome.notLive, pres, w⟩
  else if w.maxParticipants ≤ sCard pres then ⟨JoinOutcome.roomFull, pres, w⟩
  else
    let role := getUserRoleInWebinar u w
    let r := mkPresenceRecord u sid role now
    ⟨JoinOutcome.joined, sAdd pres r,
      { w with participants := addParticipant w.participants u.id role now }⟩

/-- Predicate of the find call in leaveRoom and updateParticipantState of
socketHandler.js: a presence member of the given user. -/
def presenceMatch (uid : String) (r : PresenceRecord) : Bool :=
  r.userId == uid

/-- The presence half of leaveRoom from socketHandler.js: sMembers, find
the first member whose userId matches, and sRem exactly that member;
nothing is removed when no member matches. -/
def leavePresence (pres : List PresenceRecord) (uid : String) : List PresenceRecord :=
  match pres.find? (presenceMatch uid) with
  | some r => sRem pres r
  | none => pres

/-- The room-scoped shared state leaveRoom touches: the Redis presence
set and the participants array of the webinar document. -/
structure RoomState where
  presence : List PresenceRecord
  parts : List WebinarParticipant
deriving DecidableEq, Repr

/-- leaveRoom from socketHandler.js, restricted to its effect on shared
state: remove the first matching presence member, then close the user
out of the webinar participants array. -/
def leaveRoom (st : RoomState) (uid : String) (now : Nat) : RoomState :=
  { presence := leavePresence st.presence uid
    parts := removeParticipant st.parts uid now }

/-- Phase of one in-flight handleJoinRoom request in the interleaved
execution model: the handler suspends at each store call, so the
capacity read (sCard) and the insertion (sAdd) are separate steps. -/
inductive JoinPhase where
  | ready
  | passed
  | admitted
  | rejected
deriving DecidableEq, Repr

/-- One in-flight join request: the record it will insert and how far it
has progressed. -/
structure PendingJoin where
  record : PresenceRecord
  phase : JoinPhase
deriving DecidableEq, Repr

/-- State of a room under concurrent joins: the shared presence set plus
the pending requests. -/
structure RaceState where
  presence : List PresenceRecord
  pending : List PendingJoin
deriving DecidableEq, Repr

/-- One scheduler step of request i, following handleJoinRoom: a ready
request runs the sCard capacity comparison and is rejected when the set
already holds cap members, otherwise passes; a passed request performs
its sAdd and is admitted. -/
def joinStep (cap : Nat) (st : RaceState) (i : Nat) : RaceState :=
  match st.pending[i]? with
  | none => st
  | some pj =>
    match pj.phase with
    | JoinPhase.ready =>
      if cap ≤ sCard st.presence then
        { st with pending := st.pending.set i { pj with phase := JoinPhase.rejected } }
      else
        { st with pending := st.pending.set i { pj with phase := JoinPhase.passed } }
    | JoinPhase.passed =>
      { presence := sAdd st.presence pj.record
        pending := st.pending.set i { pj with phase := JoinPhase.admitted } }
    | _ => st

/-- Runs a schedule of interleaved join steps. -/
def runJoins (cap : Nat) (st : RaceState) (sched : List Nat) : RaceState :=
  sched.foldl (joinStep cap) st

/-- A server-to-client emission: an error event to a user, a room
broadcast of a chat message, a signaling envelope to a channel, or the
removed-from-room notification. -/
inductive Emission where
  | errorTo (uid message : String)
  | newMessage (roomId : String) (senderId body : String) (timestamp : Nat)
  | signalTo (channel event fromUserId : String) (fromUsername : Option String)
      (payload : String)
  | removedFromRoom (channel reason : String)
deriving DecidableEq, Repr

/-- Whether an emission is an error event addressed to some user. -/
def Emission.isErrorTo : Emission → Bool
  | Emission.errorTo _ _ => true
  | _ => false

/-- The client payload of a signaling event. The handlers destructure
only the target id and the session payload; any sender field the client
supplies rides along unread, modelled by the claimedFrom field. -/
structure SignalData where
  targetUserId : String
  payload : String
  claimedFrom : Option String
deriving DecidableEq, Repr

/-- handleOffer from socketHandler.js: emit one offer envelope to the
personal channel of the target, stamped with the authenticated sender
identity and username from socket.user. -/
def handleOffer (sender : UserInfo) (d : SignalData) : List Emission :=
  [Emission.signalTo ("user:" ++ d.targetUserId) "offer" sender.id
    (some sender.username) d.payload]

/-- handleAnswer from socketHandler.js: as handleOffer, event answer. -/
def handleAnswer (sender : UserInfo) (d : SignalData) : List Emission :=
  [Emission.signalTo ("user:" ++ d.targetUserId) "answer" sender.id
    (some sender.username) d.payload]

/-- handleIceCandidate from socketHandler.js: one ice-candidate envelope
stamped with the authenticated sender identity (no username field). -/
def handleIceCandidate (sender : UserInfo) (d : SignalData) : List Emission :=
  [Emission.signalTo ("user:" ++ d.targetUserId) "ice-candidate" sender.id
    none d.payload]

/-- An entry of the in-memory participants map of server.js: a logical
participant and the socket currently owning it, when connected. -/
structure SParticipant where
  id : String
  socketId : Option String
deriving DecidableEq, Repr

/-- The webrtc-offer handler of server.js: looks the target up in the
participants map and, only when found with a live socket, emits the
envelope to that socket stamped with the authenticated sender; otherwise
it does nothing at all. -/
def webrtcOffer (parts : List SParticipant) (senderId : String) (d : SignalData) :
    List Emission :=
  match parts.find? (fun p => p.id == d.targetUserId) with
  | some tp =>
    match tp.socketId with
    | some sid => [Emission.signalTo sid "webrtc-offer" senderId none d.payload]
    | none => []
  | none => []

/-- The webrtc-answer handler of server.js, same shape as webrtcOffer. -/
def webrtcAnswer (parts : List SParticipant) (senderId : String) (d : SignalData) :
    List Emission :=
  match parts.find? (fun p => p.id == d.targetUserId) with
  | some tp =>
    match tp.socketId with
    | some sid => [Emission.signalTo sid "webrtc-answer" senderId none d.payload]
    | none => []
  | none => []

/-- The webrtc-ice-candidate handler of server.js, same shape. -/
def webrtcIceCandidate (parts : List SParticipant) (senderId : String) (d : SignalData) :
    List Emission :=
  match parts.find? (fun p => p.id == d.targetUserId) with
  | some tp =>
    match tp.socketId with
    | some sid => [Emission.signalTo sid "webrtc-ice-candidate" senderId none d.payload]
    | none => []
  | none => []

/-- Whether the target of an envelope is absent for the server.js relay:
not in the participants map, or present without a live socket. -/
def targetAbsent (parts : List SParticipant) (tgt : String) : Bool :=
  match parts.find? (fun p => p.id == tgt) with
  | none => true
  | some tp => tp.socketId == none

/-- Lookup in a string-keyed association table (a Redis keyspace or the
per-room chat logs). -/
def kvGet {α : Type} (kv : List (String × α)) (k : String) : Option α :=
  (kv.find? (fun e => e.1 == k)).map (fun e => e.2)

/-- Write-through update of a string-keyed association table. -/
def kvSet {α : Type} : List (String × α) → String → α → List (String × α)
  | [], k, v => [(k, v)]
  | e :: t, k, v => if e.1 == k then (k, v) :: t else e :: kvSet t k v

/-- A stored chat message, restricted to the fields the claims read. -/
structure ChatMessage where
  userId : String
  message : String
  timestamp : Nat
  role : String
deriving DecidableEq, Repr

/-- The cross-room chat state of socketHandler.js: the rate-limit
keyspace and, per room, the Redis list room chat (newest first, as
lPush builds it). -/
structure ChatGlobal where
  rlkv : List (String × RedisCounter)
  rooms : List (String × List ChatMessage)
deriving DecidableEq, Repr

/-- The chat log of a room, empty when the key does not exist. -/
def roomLog (g : ChatGlobal) (roomId : String) : List ChatMessage :=
  (kvGet g.rooms roomId).getD []

/-- handleSendMessage from socketHandler.js, with the current room and
webinar given: first the rate-limit check under key
RATE_LIMIT_KEY(user, chat) with limits 10 per 60 seconds (note the key
ignores the room); then the chat-disabled gate; then the trimmed body is
lPush-ed, the log lTrim-med to the newest 100, and the message broadcast
to the room. No blank check is performed anywhere. -/
def handleSendMessage (w : WebinarDoc) (roomId : String) (g : ChatGlobal)
    (u : UserInfo) (msg : String) (now : Nat) : ChatGlobal × List Emission :=
  let key := RATE_LIMIT_KEY u.id "chat"
  let rl := isRateLimitedAt (kvGet g.rlkv key) now 10 60
  let g1 : ChatGlobal := { g with rlkv := kvSet g.rlkv key rl.1 }
  if rl.2 then
    (g1, [Emission.errorTo u.id "Too many messages. Please slow down."])
  else if w.settings.allowChat = false then
    (g1, [Emission.errorTo u.id "Chat is disabled"])
  else
    let body := jsTrim msg
    let cm : ChatMessage :=
      { userId := u.id, message := body, timestamp := now
        role := getUserRoleInWebinar u w }
    let log2 := (cm :: roomLog g1 roomId).take 100
    ({ g1 with rooms := kvSet g1.rooms roomId log2 },
      [Emission.newMessage roomId u.id body now])

/-- The chat state of the server.js chat-message handler: the per-sender
rate counter (key chat:participantId) and the in-memory message array of
the webinar (oldest first, capped at 1000). -/
structure ServerChatState where
  rl : Option RedisCounter
  messages : List ChatMessage
deriving DecidableEq, Repr

/-- The chat-message handler of server.js (participant and webinar
already resolved): a body blank after trimming makes the handler return
at once, emitting nothing and changing nothing; otherwise the counter is
incremented (expiry 60 seconds on the first increment of a window), a
count above 10 is rejected as rate limited, and an accepted message is
appended to the capped array and broadcast to the room. -/
def serverChatMessage (st : ServerChatState) (pid role : String) (msg : String)
    (now : Nat) : ServerChatState × List Emission :=
  if (jsTrim msg).length = 0 then (st, [])
  else
    let rc := redisIncrAt st.rl now
    let rc2 := if rc.count = 1 then { rc with expireAt := some (now + 60) } else rc
    if rc.count > 10 then
      ({ st with rl := some rc2 }, [Emission.errorTo pid "Chat rate limit exceeded"])
    else
      let cm : ChatMessage :=
        { userId := pid, message := jsTrim msg, timestamp := now, role := role }
      let arr := st.messages ++ [cm]
      let arr2 := if arr.length > 1000 then arr.drop (arr.length - 1000) else arr
      ({ rl := some rc2, messages := arr2 },
        [Emission.newMessage "room" pid (jsTrim msg) now])

/-- handleRemoveParticipant from socketHandler.js: nothing happens
without a current room or a found webinar; a non-host requester only
receives an error event; the host case emits removed-from-room to the
personal channel of the target. In every case the function returns the
shared room state untouched: no presence member is removed and no
webinar participant entry is modified. -/
def handleRemoveParticipant (st : RoomState) (webinarOpt : Option WebinarDoc)
    (requester : UserInfo) (currentRoom : Option String) (targetUserId : String) :
    RoomState × List Emission :=
  match currentRoom with
  | none => (st, [])
  | some _ =>
    match webinarOpt with
    | none => (st, [])
    | some w =>
      if ¬ (w.host = requester.id) then
        (st, [Emission.errorTo requester.id "Only host can remove participants"])
      else
        (st, [Emission.removedFromRoom ("user:" ++ targetUserId) "Removed by host"])

/-- getRoomParticipants from socketHandler.js: the parsed members of the
room presence set. -/
def getRoomParticipants (st : RoomState) : List PresenceRecord :=
  st.presence

/-- Posts a sequence of timed messages through handleSendMessage into one
room, threading the chat state. -/
def postMany (w : WebinarDoc) (roomId : String) (g : ChatGlobal) (u : UserInfo)
    (msgs : List (String × Nat)) : ChatGlobal :=
  msgs.foldl (fun acc m => (handleSendMessage w roomId acc u m.1 m.2).1) g

/-- A public live webinar with chat allowed, capacity 10 and host h:
the concrete fixture of several scenarios below. -/
def wLive : WebinarDoc :=
  { host := "h", status := WStatus.live, roomId := "roomA", maxParticipants := 10
    isPublic := true, settings := ⟨true, true, false⟩, participants := []
    actualStartTime := none, actualEndTime := none }

/-- A concrete authenticated student. -/
def uStudent : UserInfo :=
  ⟨"u", "u", "student"⟩

/-- Ten timed chat posts inside one 60-second window. -/
def tenPosts : List (String × Nat) :=
  (List.range 10).map (fun i => ("hello", i))

/-- Two pending joins racing an empty capacity-1 room. -/
def raceInit : RaceState :=
  ⟨[], [⟨mkPresenceRecord ⟨"alice", "alice", "admin"⟩ "sA" "attendee" 0, JoinPhase.ready⟩,
        ⟨mkPresenceRecord ⟨"bob", "bob", "admin"⟩ "sB" "attendee" 0, JoinPhase.ready⟩]⟩

/-- The in-memory Webinar of server.js, restricted to the lifecycle
fields its start-webinar and end-webinar socket handlers touch: there is
no status enum on that variant, only the isLive flag plus the recorded
start and end instants. -/
structure SWebinar where
  id : String
  hostId : String
  isLive : Bool
  startTime : Option Nat
  endTime : Option Nat
deriving DecidableEq, Repr

/-- A room broadcast of the server.js lifecycle socket handlers. -/
inductive LifecycleEvent where
  | webinarStarted (roomId : String) (startTime : Nat)
  | webinarEnded (roomId : String) (endTime : Nat)
deriving DecidableEq, Repr

/-- The start-webinar socket handler of server.js: when the requester is
the recorded host it unconditionally sets isLive and startTime and
broadcasts webinar-started to the room — there is no check of the
current state, so it also fires on an already-ended webinar; any other
requester is silently ignored, with no response of any kind. -/
def startWebinarSocket (w : SWebinar) (requesterId : String) (now : Nat) :
    SWebinar × List LifecycleEvent :=
  if w.hostId = requesterId then
    ({ w with isLive := true, startTime := some now },
     [LifecycleEvent.webinarStarted w.id now])
  else (w, [])

/-- The end-webinar socket handler of server.js: when the requester is
the recorded host it unconditionally clears isLive, sets endTime and
broadcasts webinar-ended — again with no state check, so it also fires
on a webinar that was never started; any other requester is silently
ignored. -/
def endWebinarSocket (w : SWebinar) (requesterId : String) (now : Nat) :
    SWebinar × List LifecycleEvent :=
  if w.hostId = requesterId then
    ({ w with isLive := false, endTime := some now },
     [LifecycleEvent.webinarEnded w.id now])
  else (w, [])

theorem leavePresence_of_countP_zero (pres : List PresenceRecord) (uid : String)
    (h : pres.countP (presenceMatch uid) = 0) : leavePresence pres uid = pres := by
  have hf : pres.find? (presenceMatch uid) = none :=
    List.find?_eq_none.mpr (List.countP_eq_zero.mp h)
  unfold leavePresence
  rw [hf]

theorem leavePresence_cons_pos (a : PresenceRecord) (t : List PresenceRecord)
    (uid : String) (ha : presenceMatch uid a) :
    leavePresence (a :: t) uid = (a :: t).erase a := by
  unfold leavePresence sRem
  rw [List.find?_cons_of_pos _ ha]

theorem leavePresence_cons_neg_some (a r : PresenceRecord) (t : List PresenceRecord)
    (uid : String) (ha : ¬ presenceMatch uid a = true)
    (hf : t.find? (presenceMatch uid) = some r) :
    leavePresence (a :: t) uid = (a :: t).erase r := by
  unfold leavePresence sRem
  rw [List.find?_cons_of_neg _ ha, hf]

theorem leavePresence_cons_neg_none (a : PresenceRecord) (t : List PresenceRecord)
    (uid : String) (ha : ¬ presenceMatch uid a = true)
    (hf : t.find? (presenceMatch uid) = none) :
    leavePresence (a :: t) uid = a :: t := by
  unfold leavePresence sRem
  rw [List.find?_cons_of_neg _ ha, hf]

theorem countP_leavePresence (uid : String) :
    ∀ pres : List PresenceRecord, pres.countP (presenceMatch uid) ≤ 1 →
      (leavePresence pres uid).countP (presenceMatch uid) = 0 := by
  intro pres
  induction pres with
  | nil => intro _; rfl
  | cons a t ih =>
    intro h
    by_cases ha : presenceMatch uid a
    · have hct : t.countP (presenceMatch uid) = 0 := by
        rw [List.countP_cons, if_pos ha] at h
        omega
      rw [leavePresence_cons_pos a t uid ha, List.erase_cons,
        if_pos (beq_self_eq_true a)]
      exact hct
    · cases hf : t.find? (presenceMatch uid) with
      | none =>
        have hz : ∀ x ∈ t, ¬ presenceMatch uid x = true := List.find?_eq_none.mp hf
        rw [leavePresence_cons_neg_none a t uid ha hf, List.countP_cons, if_neg ha,
          List.countP_eq_zero.mpr hz]
      | some r =>
        rw [leavePresence_cons_neg_some a r t uid ha hf]
        have hr : presenceMatch uid r := List.find?_some hf
        have hane : (a == r) = false := by
          apply beq_eq_false_iff_ne.mpr
          intro he
          rw [he] at ha
          exact ha hr
        rw [List.erase_cons, if_neg (by simp [hane]), List.countP_cons, if_neg ha]
        have hlp : leavePresence t uid = t.erase r := by
          unfold leavePresence sRem
          rw [hf]
        have ht : (leavePresence t uid).countP (presenceMatch uid) = 0 := by
          apply ih
          rw [List.countP_cons, if_neg ha] at h
          omega
        rw [hlp] at ht
        omega

theorem removeParticipant_cons (p : WebinarParticipant) (t : List WebinarParticipant)
    (uid : String) (now : Nat) :
    removeParticipant (p :: t) uid now
      = if activeMatch uid p then
          { p with leftAt := some now, duration := some (now - p.joinedAt) } :: t
        else p :: removeParticipant t uid now := rfl

theorem removeParticipant_of_countP_zero (uid : String) (now : Nat) :
    ∀ ps : List WebinarParticipant, ps.countP (activeMatch uid) = 0 →
      removeParticipant ps uid now = ps := by
  intro ps
  induction ps with
  | nil => intro _; rfl
  | cons p t ih =>
    intro h
    have hp : ¬ activeMatch uid p = true := by
      intro hp
      rw [List.countP_cons, if_pos hp] at h
      omega
    have hct : t.countP (activeMatch uid) = 0 := by
      rw [List.countP_cons, if_neg hp] at h
      omega
    rw [removeParticipant_cons, if_neg hp, ih hct]

theorem countP_removeParticipant (uid : String) (now : Nat) :
    ∀ ps : List WebinarParticipant, ps.countP (activeMatch uid) ≤ 1 →
      (removeParticipant ps uid now).countP (activeMatch uid) = 0 := by
  intro ps
  induction ps with
  | nil => intro _; rfl
  | cons p t ih =>
    intro h
    by_cases hp : activeMatch uid p
    · have hct : t.countP (activeMatch uid) = 0 := by
        rw [List.countP_cons, if_pos hp] at h
        omega
      rw [removeParticipant_cons, if_pos hp, List.countP_cons]
      have hclosed :
          activeMatch uid { p with leftAt := some now, duration := some (now - p.joinedAt) }
            = false := by
        simp [activeMatch]
      rw [hclosed]
      simpa using hct
    · have hct : t.countP (activeMatch uid) ≤ 1 := by
        rw [List.countP_cons, if_neg hp] at h
        omega
      rw [removeParticipant_cons, if_neg hp, List.countP_cons, if_neg hp, ih hct]

/-- Claim C1: the claim says at most one of several join requests racing
the last free slot is admitted, because the capacity check and the
presence insertion form one atomic store operation. The code instead
performs a separate sCard read followed by an sAdd write, with an await
at each; this theorem evaluates that two-step join at the failing input:
a capacity-1 room with two concurrent joins whose capacity checks both
run before either insertion. Both requests are admitted and the room
ends with 2 active presence records, above the capacity 1 — while the
same two requests run back to back (each insertion before the next
check) admit exactly one and reject the other, showing the overshoot is
precisely the non-atomic interleaving. -/
theorem joinRace_capacity_overshoot :
    (runJoins 1 raceInit [0, 1, 0, 1]).presence.length = 2 ∧
    1 < (runJoins 1 raceInit [0, 1, 0, 1]).presence.length ∧
    ((runJoins 1 raceInit [0, 1, 0, 1]).pending.map (fun p => p.phase))
      = [JoinPhase.admitted, JoinPhase.admitted] ∧
    (runJoins 1 raceInit [0, 0, 1, 1]).presence.length = 1 ∧
    ((runJoins 1 raceInit [0, 0, 1, 1]).pending.map (fun p => p.phase))
      = [JoinPhase.admitted, JoinPhase.rejected] := by
  decide

/-- Claim C2, counterexample: the claim says at most one active presence
record per (room, participantId) ever exists, a rejoin replacing the
stale record. Starting from an empty room, user u joins from socket s1
and then rejoins from socket s2 without leaving; both handleJoinRoom
calls succeed and the room then holds two presence records for u, so
the stated uniqueness bound is false on the code. -/
theorem rejoin_adds_second_record_cex :
    (handleJoinRoom wLive [] uStudent "s1" 0).outcome = JoinOutcome.joined ∧
    (handleJoinRoom (handleJoinRoom wLive [] uStudent "s1" 0).webinar
        (handleJoinRoom wLive [] uStudent "s1" 0).presence uStudent "s2" 5).outcome
      = JoinOutcome.joined ∧
    ¬ ((handleJoinRoom (handleJoinRoom wLive [] uStudent "s1" 0).webinar
        (handleJoinRoom wLive [] uStudent "s1" 0).presence uStudent "s2" 5).presence.countP
          (presenceMatch "u") ≤ 1) := by
  decide

/-- Claim C2, amended: a participant rejoining a room while a stale
record of theirs is still present is admitted without error (there is no
AlreadyPresent rejection), but the stale record is not replaced: the
fresh record is added beside it, and both remain in the room presence
set, so per-(room, participantId) uniqueness is not maintained. -/
theorem rejoin_no_replace_two_records (w : WebinarDoc) (pres : List PresenceRecord)
    (u : UserInfo) (sid : String) (now : Nat) (stale : PresenceRecord)
    (hmem : stale ∈ pres)
    (huid : stale.userId = u.id)
    (hrole : u.role = "student" → w.isPublic = true ∧ w.status = WStatus.live)
    (hcap : sCard pres < w.maxParticipants) :
    (handleJoinRoom w pres u sid now).outcome = JoinOutcome.joined ∧
    stale ∈ (handleJoinRoom w pres u sid now).presence ∧
    mkPresenceRecord u sid (getUserRoleInWebinar u w) now
      ∈ (handleJoinRoom w pres u sid now).presence ∧
    (mkPresenceRecord u sid (getUserRoleInWebinar u w) now).userId = stale.userId := by
  have hc1 : ¬ (u.role = "student" ∧ w.isPublic = false) := by
    rintro ⟨hs, hp⟩
    rcases hrole hs with ⟨hp', _⟩
    rw [hp'] at hp
    cases hp
  have hc2 : ¬ (u.role = "student" ∧ ¬ (w.status = WStatus.live)) := by
    rintro ⟨hs, hl⟩
    exact hl (hrole hs).2
  have hc3 : ¬ (w.maxParticipants ≤ sCard pres) := by
    omega
  have hres : handleJoinRoom w pres u sid now
      = ⟨JoinOutcome.joined,
         sAdd pres (mkPresenceRecord u sid (getUserRoleInWebinar u w) now),
         { w with participants :=
            addParticipant w.participants u.id (getUserRoleInWebinar u w) now }⟩ := by
    simp only [handleJoinRoom, if_neg hc1, if_neg hc2, if_neg hc3]
  rw [hres]
  refine ⟨rfl, ?_, ?_, ?_⟩
  · by_cases hr : mkPresenceRecord u sid (getUserRoleInWebinar u w) now ∈ pres <;>
      simp [sAdd, hr, hmem]
  · by_cases hr : mkPresenceRecord u sid (getUserRoleInWebinar u w) now ∈ pres <;>
      simp [sAdd, hr]
  · simp [mkPresenceRecord, huid]

/-- Claim C2, amended, witness: a concrete rejoin of user u from socket
s2 while the stale s1 record is still in the room. -/
theorem rejoin_no_replace_two_records_witness :
    (handleJoinRoom wLive [mkPresenceRecord uStudent "s1" "attendee" 0] uStudent "s2" 5).outcome
      = JoinOutcome.joined ∧
    mkPresenceRecord uStudent "s1" "attendee" 0
      ∈ (handleJoinRoom wLive [mkPresenceRecord uStudent "s1" "attendee" 0] uStudent
          "s2" 5).presence ∧
    mkPresenceRecord uStudent "s2" (getUserRoleInWebinar uStudent wLive) 5
      ∈ (handleJoinRoom wLive [mkPresenceRecord uStudent "s1" "attendee" 0] uStudent
          "s2" 5).presence ∧
    (mkPresenceRecord uStudent "s2" (getUserRoleInWebinar uStudent wLive) 5).userId
      = (mkPresenceRecord uStudent "s1" "attendee" 0).userId := by
  have h := rejoin_no_replace_two_records wLive
    [mkPresenceRecord uStudent "s1" "attendee" 0] uStudent "s2" 5
    (mkPresenceRecord uStudent "s1" "attendee" 0)
    (by decide) (by decide) (fun _ => by decide) (by decide)
  exact h

/-- Claim C3: every relayed signaling envelope (offer, answer,
ice-candidate) is exactly one emission to the personal channel of the
target, stamped with the authenticated sender identity from socket.user;
two client payloads differing only in a client-supplied sender field
produce identical emissions, because the handlers never read that
field. -/
theorem signaling_sender_stamped_authenticated (sender : UserInfo)
    (tgt payload : String) (cf cf' : Option String) :
    handleOffer sender ⟨tgt, payload, cf⟩
      = [Emission.signalTo ("user:" ++ tgt) "offer" sender.id (some sender.username) payload] ∧
    handleAnswer sender ⟨tgt, payload, cf⟩
      = [Emission.signalTo ("user:" ++ tgt) "answer" sender.id (some sender.username) payload] ∧
    handleIceCandidate sender ⟨tgt, payload, cf⟩
      = [Emission.signalTo ("user:" ++ tgt) "ice-candidate" sender.id none payload] ∧
    handleOffer sender ⟨tgt, payload, cf⟩ = handleOffer sender ⟨tgt, payload, cf'⟩ ∧
    handleAnswer sender ⟨tgt, payload, cf⟩ = handleAnswer sender ⟨tgt, payload, cf'⟩ ∧
    handleIceCandidate sender ⟨tgt, payload, cf⟩
      = handleIceCandidate sender ⟨tgt, payload, cf'⟩ :=
  ⟨rfl, rfl, rfl, rfl, rfl, rfl⟩

/-- Claim C4, counterexample: the claim says a relay whose target is not
present responds to the sender with TargetNotFound. With an empty
participants map, the webrtc-offer handler of server.js produces no
emission at all — in particular no error event reaches the sender. -/
theorem relay_absent_target_no_response_cex :
    webrtcOffer [] "A" ⟨"B", "sdp", some "liar"⟩ = [] ∧
    ¬ ∃ e ∈ webrtcOffer [] "A" ⟨"B", "sdp", some "liar"⟩, e.isErrorTo = true := by
  decide

/-- Claim C4, amended: when the target of a signaling envelope is not
currently present (absent from the participants map, or present without
a live socket), the relay silently drops the envelope: it emits nothing
at all — no delivery, no response to the sender — and, holding no queue,
retries nothing; the handler completes immediately in either case. -/
theorem relay_absent_target_silent_drop (parts : List SParticipant) (senderId : String)
    (d : SignalData) (h : targetAbsent parts d.targetUserId = true) :
    webrtcOffer parts senderId d = [] ∧
    webrtcAnswer parts senderId d = [] ∧
    webrtcIceCandidate parts senderId d = [] := by
  unfold targetAbsent at h
  have key : ∀ ev : String,
      (match parts.find? (fun p => p.id == d.targetUserId) with
        | some tp =>
          match tp.socketId with
          | some sid => [Emission.signalTo sid ev senderId none d.payload]
          | none => []
        | none => []) = ([] : List Emission) := by
    intro ev
    cases hf : parts.find? (fun p => p.id == d.targetUserId) with
    | none => rfl
    | some tp =>
      rw [hf] at h
      have h2 : (tp.socketId == none) = true := h
      have hs : tp.socketId = none := by
        cases hsk : tp.socketId with
        | none => rfl
        | some s =>
          rw [hsk] at h2
          exact Bool.noConfusion h2
      show (match tp.socketId with
        | some sid => [Emission.signalTo sid ev senderId none d.payload]
        | none => ([] : List Emission)) = []
      rw [hs]
  refine ⟨?_, ?_, ?_⟩
  · exact key "webrtc-offer"
  · exact key "webrtc-answer"
  · exact key "webrtc-ice-candidate"

/-- Claim C4, amended, witness: a relay towards a target missing from an
empty participants map yields no emission for any of the three event
kinds. -/
theorem relay_absent_target_silent_drop_witness :
    webrtcOffer [] "A" ⟨"B", "sdp", none⟩ = [] ∧
    webrtcAnswer [] "A" ⟨"B", "sdp", none⟩ = [] ∧
    webrtcIceCandidate [] "A" ⟨"B", "sdp", none⟩ = [] :=
  relay_absent_target_silent_drop [] "A" ⟨"B", "sdp", none⟩ (by decide)

/-- Claim C5, counterexample: the claim says end requested while the
state is scheduled (skipping live) yields InvalidState, that from ended
no further transition is accepted, and that a non-host start yields
Forbidden. On the start-webinar and end-webinar socket handlers of
server.js — one of the cited code places — all three fail on a concrete
never-started webinar W with host h: a host end is accepted, setting
endTime and broadcasting webinar-ended; a host start issued after that
end is accepted too and makes the webinar live again; and a start by the
stranger x is silently ignored, with no Forbidden response or any other
emission. -/
theorem lifecycle_socket_no_state_check_cex :
    endWebinarSocket ⟨"W", "h", false, none, none⟩ "h" 9
      = (⟨"W", "h", false, none, some 9⟩, [LifecycleEvent.webinarEnded "W" 9]) ∧
    (startWebinarSocket (endWebinarSocket ⟨"W", "h", false, none, none⟩ "h" 9).1
        "h" 12).1.isLive = true ∧
    startWebinarSocket ⟨"W", "h", false, none, none⟩ "x" 5
      = (⟨"W", "h", false, none, none⟩, []) := by
  decide

/-- Claim C5, amended: the lifecycle routes of routes/webinars.js behave
as the claim states — the host starting a scheduled webinar succeeds,
flipping the status to live and recording the start time; a non-host
requester is forbidden for both transitions; a host start from any
non-scheduled status is an invalid state; the host ending a live webinar
succeeds and moves it to ended; and a host end from any non-live status,
in particular from scheduled or from ended, is an invalid state — but
the start-webinar and end-webinar socket handlers of server.js enforce
only the host identity and no state at all: for the host, end is
accepted whatever the current state (even never-started) and start is
accepted whatever the current state (even after an end, making the
webinar live again), while a non-host request is silently ignored with
no Forbidden response. -/
theorem webinar_lifecycle_transitions (w : WebinarDoc) (sw : SWebinar)
    (r : String) (now : Nat) :
    (w.host = r → w.status = WStatus.scheduled →
      postStart w r now = LifecycleRes.started (startWebinar w now) ∧
      (startWebinar w now).status = WStatus.live ∧
      (startWebinar w now).actualStartTime = some now) ∧
    (¬ (w.host = r) →
      postStart w r now = LifecycleRes.forbidden ∧
      postEnd w r now = LifecycleRes.forbidden) ∧
    (w.host = r → ¬ (w.status = WStatus.scheduled) →
      postStart w r now = LifecycleRes.invalidState) ∧
    (w.host = r → w.status = WStatus.live →
      postEnd w r now = LifecycleRes.ended (endWebinar w now) ∧
      (endWebinar w now).status = WStatus.ended ∧
      (endWebinar w now).actualEndTime = some now) ∧
    (w.host = r → ¬ (w.status = WStatus.live) →
      postEnd w r now = LifecycleRes.invalidState) ∧
    (sw.hostId = r →
      endWebinarSocket sw r now
        = ({ sw with isLive := false, endTime := some now },
           [LifecycleEvent.webinarEnded sw.id now]) ∧
      startWebinarSocket sw r now
        = ({ sw with isLive := true, startTime := some now },
           [LifecycleEvent.webinarStarted sw.id now])) ∧
    (¬ (sw.hostId = r) →
      startWebinarSocket sw r now = (sw, []) ∧
      endWebinarSocket sw r now = (sw, [])) := by
  refine ⟨?_, ?_, ?_, ?_, ?_, ?_, ?_⟩
  · intro hh hs
    refine ⟨?_, rfl, rfl⟩
    simp [postStart, hh, hs]
  · intro hh
    constructor
    · simp [postStart, hh]
    · simp [postEnd, hh]
  · intro hh hs
    simp [postStart, hh, hs]
  · intro hh hs
    refine ⟨?_, rfl, rfl⟩
    simp [postEnd, hh, hs]
  · intro hh hs
    simp [postEnd, hh, hs]
  · intro hh
    constructor
    · simp [endWebinarSocket, hh]
    · simp [startWebinarSocket, hh]
  · intro hh
    constructor
    · simp [startWebinarSocket, hh]
    · simp [endWebinarSocket, hh]

/-- Claim C5, amended, witness: on a concrete scheduled webinar with
host h, the host starts it through the route, a stranger is forbidden,
and ending it while still scheduled is an invalid state; on the
concrete never-started socket-variant webinar W, the host end is
accepted and a stranger start is silently ignored. -/
theorem webinar_lifecycle_transitions_witness :
    postStart { host := "h", status := WStatus.scheduled, roomId := "r"
                maxParticipants := 10, isPublic := true
                settings := ⟨true, true, false⟩, participants := []
                actualStartTime := none, actualEndTime := none } "h" 7
      = LifecycleRes.started (startWebinar
          { host := "h", status := WStatus.scheduled, roomId := "r"
            maxParticipants := 10, isPublic := true
            settings := ⟨true, true, false⟩, participants := []
            actualStartTime := none, actualEndTime := none } 7) ∧
    postStart { host := "h", status := WStatus.scheduled, roomId := "r"
                maxParticipants := 10, isPublic := true
                settings := ⟨true, true, false⟩, participants := []
                actualStartTime := none, actualEndTime := none } "x" 7
      = LifecycleRes.forbidden ∧
    postEnd { host := "h", status := WStatus.scheduled, roomId := "r"
              maxParticipants := 10, isPublic := true
              settings := ⟨true, true, false⟩, participants := []
              actualStartTime := none, actualEndTime := none } "h" 7
      = LifecycleRes.invalidState ∧
    endWebinarSocket ⟨"W", "h", false, none, none⟩ "h" 9
      = (⟨"W", "h", false, none, some 9⟩, [LifecycleEvent.webinarEnded "W" 9]) ∧
    startWebinarSocket ⟨"W", "h", false, none, none⟩ "x" 5
      = (⟨"W", "h", false, none, none⟩, []) := by
  refine ⟨?_, ?_, ?_, ?_, ?_⟩
  · exact ((webinar_lifecycle_transitions _ ⟨"W", "h", false, none, none⟩ "h" 7).1 rfl rfl).1
  · exact ((webinar_lifecycle_transitions _ ⟨"W", "h", false, none, none⟩ "x" 7).2.1
      (by decide)).1
  · exact (webinar_lifecycle_transitions _ ⟨"W", "h", false, none, none⟩ "h" 7).2.2.2.2.1
      rfl (by decide)
  · exact ((webinar_lifecycle_transitions
      { host := "h", status := WStatus.scheduled, roomId := "r"
        maxParticipants := 10, isPublic := true
        settings := ⟨true, true, false⟩, participants := []
        actualStartTime := none, actualEndTime := none }
      ⟨"W", "h", false, none, none⟩ "h" 9).2.2.2.2.2.1 rfl).1
  · exact ((webinar_lifecycle_transitions
      { host := "h", status := WStatus.scheduled, roomId := "r"
        maxParticipants := 10, isPublic := true
        settings := ⟨true, true, false⟩, participants := []
        actualStartTime := none, actualEndTime := none }
      ⟨"W", "h", false, none, none⟩ "x" 5).2.2.2.2.2.2 (by decide)).1

/-- Claim C6: the rate limiter increments the per-(subject, action)
counter, arms the expiry windowSeconds after the first increment of a
window, and answers denied exactly when the post-increment count exceeds
the maximum; concretely, with maximum 10 over 60 seconds, ten posts
inside the window are allowed, the eleventh is denied, and a later post
after the window has expired is allowed again. -/
theorem rate_limiter_window_behavior :
    (∀ (c : Option RedisCounter) (now maxRequests windowSeconds : Nat),
      (isRateLimitedAt c now maxRequests windowSeconds).2
        = decide ((redisIncrAt c now).count > maxRequests)) ∧
    (∀ (now maxRequests windowSeconds : Nat),
      ((isRateLimitedAt none now maxRequests windowSeconds).1).expireAt
        = some (now + windowSeconds)) ∧
    (runChecks none [0, 1, 2, 3, 4, 5, 6, 7, 8, 9] 10 60).2 = List.replicate 10 false ∧
    (isRateLimitedAt (runChecks none [0, 1, 2, 3, 4, 5, 6, 7, 8, 9] 10 60).1 10 10 60).2
      = true ∧
    (isRateLimitedAt
        (some (isRateLimitedAt (runChecks none [0, 1, 2, 3, 4, 5, 6, 7, 8, 9] 10 60).1
          10 10 60).1) 61 10 60).2 = false := by
  refine ⟨fun c now maxRequests windowSeconds => rfl,
    fun now maxRequests windowSeconds => rfl, ?_, ?_, ?_⟩ <;> decide

/-- Claim C7, counterexample: the claim says a chat post blank after
trimming is rejected with EmptyMessage, appending nothing and
broadcasting nothing. In handleSendMessage a whitespace-only body passes
straight through: the empty trimmed message is appended to the room log
and broadcast to the room. -/
theorem blank_message_broadcast_cex :
    jsTrim "   " = "" ∧
    (handleSendMessage wLive "roomA" ⟨[], []⟩ uStudent "   " 0).2
      = [Emission.newMessage "roomA" "u" "" 0] ∧
    roomLog (handleSendMessage wLive "roomA" ⟨[], []⟩ uStudent "   " 0).1 "roomA"
      = [⟨"u", "", 0, "attendee"⟩] := by
  decide

/-- Claim C7, amended: blank chat posts are not rejected with an
EmptyMessage error anywhere. The server.js chat-message handler drops a
body blank after trimming silently — no message is appended, nothing is
broadcast, and no error event is emitted either — while the
socketHandler send-message path performs no blank check at all: the
trimmed empty body is appended to the room log and broadcast. -/
theorem blank_message_handling (st : ServerChatState) (pid role msg : String) (now : Nat)
    (h : jsTrim msg = "") :
    serverChatMessage st pid role msg now = (st, []) ∧
    (handleSendMessage wLive "roomA" ⟨[], []⟩ uStudent "   " 0).2
      = [Emission.newMessage "roomA" "u" "" 0] := by
  constructor
  · unfold serverChatMessage
    rw [h]
    simp
  · decide

/-- Claim C7, amended, witness: a concrete whitespace-only post through
the server.js chat handler leaves the state unchanged and emits
nothing. -/
theorem blank_message_handling_witness :
    serverChatMessage ⟨none, []⟩ "p" "attendee" "  " 3 = (⟨none, []⟩, []) :=
  (blank_message_handling ⟨none, []⟩ "p" "attendee" "  " 3 (by decide)).1

/-- Claim C8, counterexample: the claim says leave(r, p) twice always
equals leave(r, p) once. The state holding two presence records of user
u — reachable, as the first conjunct shows, by u joining from socket s1
and rejoining from socket s2 without a clean leave — refutes it: each
leave removes only the first record found for u, so the second leave
removes the second record and the states differ. -/
theorem leave_not_idempotent_duplicates_cex :
    (handleJoinRoom (handleJoinRoom wLive [] uStudent "s1" 0).webinar
        (handleJoinRoom wLive [] uStudent "s1" 0).presence uStudent "s2" 5).presence
      = [mkPresenceRecord uStudent "s1" "attendee" 0,
         mkPresenceRecord uStudent "s2" "attendee" 5] ∧
    leaveRoom (leaveRoom
        ⟨[mkPresenceRecord uStudent "s1" "attendee" 0,
          mkPresenceRecord uStudent "s2" "attendee" 5],
         [⟨"u", 0, none, none, "attendee"⟩]⟩ "u" 10) "u" 11
      ≠ leaveRoom
        ⟨[mkPresenceRecord uStudent "s1" "attendee" 0,
          mkPresenceRecord uStudent "s2" "attendee" 5],
         [⟨"u", 0, none, none, "attendee"⟩]⟩ "u" 10 := by
  decide

/-- Claim C8, amended: on states where the participant has at most one
presence record in the room and at most one active webinar participant
entry — the intended well-formed states — leave is idempotent: a second
leave changes nothing; and when the participant is already absent, leave
is a complete no-op on the shared state. On states holding duplicate
records for the participant (reachable through
reconnect-without-clean-leave) the second leave removes a further
record, so the unconditional claim fails. -/
theorem leave_idempotent_unique_records (st : RoomState) (uid : String) (t1 t2 : Nat)
    (h1 : st.presence.countP (presenceMatch uid) ≤ 1)
    (h2 : st.parts.countP (activeMatch uid) ≤ 1) :
    leaveRoom (leaveRoom st uid t1) uid t2 = leaveRoom st uid t1 ∧
    (st.presence.countP (presenceMatch uid) = 0 →
      st.parts.countP (activeMatch uid) = 0 →
      leaveRoom st uid t1 = st) := by
  obtain ⟨pres, parts⟩ := st
  constructor
  · show (⟨leavePresence (leavePresence pres uid) uid,
        removeParticipant (removeParticipant parts uid t1) uid t2⟩ : RoomState)
      = ⟨leavePresence pres uid, removeParticipant parts uid t1⟩
    rw [leavePresence_of_countP_zero _ _ (countP_leavePresence uid pres h1),
      removeParticipant_of_countP_zero uid t2 _ (countP_removeParticipant uid t1 parts h2)]
  · intro hz1 hz2
    show (⟨leavePresence pres uid, removeParticipant parts uid t1⟩ : RoomState)
      = ⟨pres, parts⟩
    rw [leavePresence_of_countP_zero _ _ hz1,
      removeParticipant_of_countP_zero uid t1 _ hz2]

/-- Claim C8, amended, witness: with a single record of user u present,
leaving twice equals leaving once. -/
theorem leave_idempotent_unique_records_witness :
    leaveRoom (leaveRoom
        ⟨[mkPresenceRecord uStudent "s1" "attendee" 0],
         [⟨"u", 0, none, none, "attendee"⟩]⟩ "u" 10) "u" 11
      = leaveRoom
        ⟨[mkPresenceRecord uStudent "s1" "attendee" 0],
         [⟨"u", 0, none, none, "attendee"⟩]⟩ "u" 10 :=
  (leave_idempotent_unique_records
    ⟨[mkPresenceRecord uStudent "s1" "attendee" 0],
     [⟨"u", 0, none, none, "attendee"⟩]⟩ "u" 10 11 (by decide) (by decide)).1

/-- Claim C9: handleRemoveParticipant never touches the shared room
state: whatever the requester, room and target, the presence set and the
webinar participants array come back unchanged — so the target still
appears in the room roster — and in the authorized case (a current room
and a webinar whose host is the requester) the sole effect is the
removed-from-room event emitted to the personal channel of the
target. -/
theorem remove_participant_presence_frame (st : RoomState) (webinarOpt : Option WebinarDoc)
    (requester : UserInfo) (currentRoom : Option String) (targetUserId : String) :
    (handleRemoveParticipant st webinarOpt requester currentRoom targetUserId).1 = st ∧
    getRoomParticipants
        (handleRemoveParticipant st webinarOpt requester currentRoom targetUserId).1
      = getRoomParticipants st ∧
    (∀ w, currentRoom.isSome = true → webinarOpt = some w → w.host = requester.id →
      (handleRemoveParticipant st webinarOpt requester currentRoom targetUserId).2
        = [Emission.removedFromRoom ("user:" ++ targetUserId) "Removed by host"]) := by
  have hfst :
      (handleRemoveParticipant st webinarOpt requester currentRoom targetUserId).1 = st := by
    cases currentRoom with
    | none => rfl
    | some r =>
      cases webinarOpt with
      | none => rfl
      | some w =>
        by_cases hh : w.host = requester.id
        · simp [handleRemoveParticipant, hh]
        · simp [handleRemoveParticipant, hh]
  refine ⟨hfst, by rw [hfst], ?_⟩
  intro w hcr hwo hh
  subst hwo
  cases currentRoom with
  | none => exact Bool.noConfusion hcr
  | some r => simp [handleRemoveParticipant, hh]

/-- Claim C9, witness: the host h removes user u from room roomA: the
room state is returned untouched and the only emission is the
removed-from-room event to the personal channel of u. -/
theorem remove_participant_presence_frame_witness :
    (handleRemoveParticipant ⟨[mkPresenceRecord uStudent "s1" "attendee" 0], []⟩
        (some wLive) ⟨"h", "h", "admin"⟩ (some "roomA") "u").1
      = ⟨[mkPresenceRecord uStudent "s1" "attendee" 0], []⟩ ∧
    (handleRemoveParticipant ⟨[mkPresenceRecord uStudent "s1" "attendee" 0], []⟩
        (some wLive) ⟨"h", "h", "admin"⟩ (some "roomA") "u").2
      = [Emission.removedFromRoom ("user:" ++ "u") "Removed by host"] :=
  ⟨(remove_participant_presence_frame ⟨[mkPresenceRecord uStudent "s1" "attendee" 0], []⟩
      (some wLive) ⟨"h", "h", "admin"⟩ (some "roomA") "u").1,
   (remove_participant_presence_frame ⟨[mkPresenceRecord uStudent "s1" "attendee" 0], []⟩
      (some wLive) ⟨"h", "h", "admin"⟩ (some "roomA") "u").2.2 wLive rfl rfl (by decide)⟩

/-- Claim C10: the chat rate-limit key is built from the user id and the
action name only, so the budget is global per user, not per room: the
rate-limit keyspace evolves identically whatever room a post targets,
and whether the post is answered with an error does not depend on the
room; concretely, after ten posts in roomA inside one window, the next
post of the same user in roomB is rejected as rate limited and roomB
receives no message, while roomA holds the ten. -/
theorem chat_rate_limit_global_per_user :
    (∀ (w : WebinarDoc) (r1 r2 : String) (g : ChatGlobal) (u : UserInfo)
        (msg : String) (now : Nat),
      ((handleSendMessage w r1 g u msg now).1).rlkv
        = ((handleSendMessage w r2 g u msg now).1).rlkv ∧
      ((handleSendMessage w r1 g u msg now).2).any Emission.isErrorTo
        = ((handleSendMessage w r2 g u msg now).2).any Emission.isErrorTo) ∧
    (handleSendMessage wLive "roomB" (postMany wLive "roomA" ⟨[], []⟩ uStudent tenPosts)
        uStudent "hello" 10).2
      = [Emission.errorTo "u" "Too many messages. Please slow down."] ∧
    roomLog (handleSendMessage wLive "roomB"
        (postMany wLive "roomA" ⟨[], []⟩ uStudent tenPosts) uStudent "hello" 10).1 "roomB"
      = [] ∧
    (roomLog (postMany wLive "roomA" ⟨[], []⟩ uStudent tenPosts) "roomA").length = 10 := by
  refine ⟨?_, by decide, by decide, by decide⟩
  intro w r1 r2 g u msg now
  unfold handleSendMessage
  by_cases hrl : (isRateLimitedAt (kvGet g.rlkv (RATE_LIMIT_KEY u.id "chat")) now 10 60).2
  · simp [hrl]
  · by_cases hac : w.settings.allowChat = false
    · simp [hrl, hac]
    · simp [hrl, hac, Emission.isErrorTo]
